import Mathlib

/-!
Verification of the go-monitoring façade (github.com/adityakw90/go-monitoring).

The development shallowly embeds the orchestration core of the repository:

* the Go error values and `errors.Is` matching (sentinels created with
  `errors.New`, wrapping with `fmt.Errorf("%s: %w", ...)`),
* `parseError` (error taxonomy mapper, src/unnamed/part_001),
* the functional-options configuration (`Options`, `defaultOptions`,
  `parseOptions`, src/options.go / src/registry.go),
* the lifecycle orchestrator `NewMonitoring` (src/registry.go) with an
  explicit event trace recording which backend calls happen and in which
  order; the three backend constructors and the two cleanup operations are
  effectful, so their outcomes are passed in as explicit data,
* the validation prefix of the metric initializer (src/internal/metric/registry.go)
  and of the tracer initializer (modelled from the spec, see `NewTracerCore`),
* the sampler selection switch (src/tracer.go lines 171-180),
* the context-propagation carrier adapter `InjectContext`/`ExtractContext`
  (src/internal/tracer/tracer_test.go second document, src/tracer.go) together
  with a concrete model of the W3C `traceparent` propagator, gRPC metadata
  maps and `net/http` header canonicalization; Go strings are modelled as
  byte sequences (`List Nat`),
* the logger's `SetLogLevel` (src/internal/logger/logger.go) over a model of
  `zapcore.ParseLevel`.
-/

/-! ## Go error values

Go sentinel errors are singletons created by `errors.New`; they compare by
identity.  Each sentinel declared by the repository gets one constructor, so
that identity equality is constructor equality. -/

/-- One constructor per sentinel error declared in the repository:
`ErrServiceNameRequired` (package monitoring), `logger.ErrInvalidLogLevel`,
the five `tracer.Err*` sentinels and the five `metric.Err*` sentinels. -/
inductive Sentinel where
  | errServiceNameRequired
  | loggerErrInvalidLogLevel
  | tracerErrInvalidProvider
  | tracerErrProviderHostRequired
  | tracerErrProviderPortRequired
  | tracerErrProviderPortInvalid
  | tracerErrBatchTimeoutInvalid
  | metricErrInvalidProvider
  | metricErrProviderHostRequired
  | metricErrProviderPortRequired
  | metricErrProviderPortInvalid
  | metricErrIntervalInvalid
  deriving DecidableEq, Repr

/-- The message each sentinel was created with (`errors.New("...")`). -/
def sentinelMessage : Sentinel → String
  | .errServiceNameRequired => "service name is required"
  | .loggerErrInvalidLogLevel => "invalid log level"
  | .tracerErrInvalidProvider => "invalid provider"
  | .tracerErrProviderHostRequired => "provider host is required"
  | .tracerErrProviderPortRequired => "provider port is required"
  | .tracerErrProviderPortInvalid => "provider port must be greater than 0"
  | .tracerErrBatchTimeoutInvalid => "batch timeout must be greater than 0"
  | .metricErrInvalidProvider => "invalid provider"
  | .metricErrProviderHostRequired => "provider host is required"
  | .metricErrProviderPortRequired => "provider port is required"
  | .metricErrProviderPortInvalid => "provider port must be greater than 0"
  | .metricErrIntervalInvalid => "interval must be greater than 0"

/-- A Go error value as used by this repository: a sentinel (`errors.New`
package variable), a plain formatted error (`fmt.Errorf` without `%w`), or a
wrapping error (`fmt.Errorf("%s: %w", msg, err)`). -/
inductive GoError where
  | sentinel (s : Sentinel)
  | errorf (msg : String)
  | wrap (msg : String) (inner : GoError)
  deriving DecidableEq, Repr

/-- `err.Error()`: the message of a Go error.  A wrapping error created by
`fmt.Errorf("%s: %w", msg, err)` has message `msg ++ ": " ++ err.Error()`. -/
def GoError.message : GoError → String
  | .sentinel s => sentinelMessage s
  | .errorf msg => msg
  | .wrap msg inner => msg ++ ": " ++ inner.message

/-- `errors.Unwrap`: only errors built with `%w` unwrap. -/
def goUnwrap : GoError → Option GoError
  | .wrap _ inner => some inner
  | _ => none

/-- `errors.Is(err, target)`: walk the unwrap chain comparing by equality. -/
def errorsIs : GoError → GoError → Bool
  | .wrap msg inner, target =>
      decide (GoError.wrap msg inner = target) || errorsIs inner target
  | e, target => decide (e = target)

/-- The non-wrap error at the end of the unwrap chain. -/
def errorLeaf : GoError → GoError
  | .wrap _ inner => errorLeaf inner
  | e => e

/-! ## Public error surface and the error taxonomy mapper

From src/unnamed/part_001: the package monitoring re-exports the internal
sentinels under public names (`ErrLoggerInvalidLogLevel = logger.ErrInvalidLogLevel`
and so on), so each public alias is the very same error value. -/

def ErrServiceNameRequired : GoError := .sentinel .errServiceNameRequired

def ErrLoggerInvalidLogLevel : GoError := .sentinel .loggerErrInvalidLogLevel

def ErrTracerInvalidProvider : GoError := .sentinel .tracerErrInvalidProvider

def ErrTracerProviderHostRequired : GoError := .sentinel .tracerErrProviderHostRequired

def ErrTracerProviderPortRequired : GoError := .sentinel .tracerErrProviderPortRequired

def ErrTracerProviderPortInvalid : GoError := .sentinel .tracerErrProviderPortInvalid

def ErrTracerBatchTimeoutInvalid : GoError := .sentinel .tracerErrBatchTimeoutInvalid

def ErrMetricInvalidProvider : GoError := .sentinel .metricErrInvalidProvider

def ErrMetricProviderHostRequired : GoError := .sentinel .metricErrProviderHostRequired

def ErrMetricProviderPortRequired : GoError := .sentinel .metricErrProviderPortRequired

def ErrMetricProviderPortInvalid : GoError := .sentinel .metricErrProviderPortInvalid

def ErrMetricIntervalInvalid : GoError := .sentinel .metricErrIntervalInvalid

/-- The fixed table of known internal sentinels that `parseError` recognizes,
in the order the source checks them (src/unnamed/part_001 lines 49-86). -/
def parseErrorTable : List Sentinel :=
  [.loggerErrInvalidLogLevel,
   .tracerErrInvalidProvider, .tracerErrProviderHostRequired,
   .tracerErrProviderPortRequired, .tracerErrProviderPortInvalid,
   .tracerErrBatchTimeoutInvalid,
   .metricErrInvalidProvider, .metricErrProviderHostRequired,
   .metricErrProviderPortRequired, .metricErrProviderPortInvalid,
   .metricErrIntervalInvalid]

/-- `parseError` (src/unnamed/part_001 lines 44-89): maps internal package
errors to public API errors.  A Go `error` argument may be nil, hence the
`Option`. -/
def parseError (err : Option GoError) (message : String) : GoError :=
  match err with
  | none => .errorf (message ++ ": unknown error")
  | some e =>
    if errorsIs e (.sentinel .loggerErrInvalidLogLevel) then ErrLoggerInvalidLogLevel
    else if errorsIs e (.sentinel .tracerErrInvalidProvider) then ErrTracerInvalidProvider
    else if errorsIs e (.sentinel .tracerErrProviderHostRequired) then ErrTracerProviderHostRequired
    else if errorsIs e (.sentinel .tracerErrProviderPortRequired) then ErrTracerProviderPortRequired
    else if errorsIs e (.sentinel .tracerErrProviderPortInvalid) then ErrTracerProviderPortInvalid
    else if errorsIs e (.sentinel .tracerErrBatchTimeoutInvalid) then ErrTracerBatchTimeoutInvalid
    else if errorsIs e (.sentinel .metricErrInvalidProvider) then ErrMetricInvalidProvider
    else if errorsIs e (.sentinel .metricErrProviderHostRequired) then ErrMetricProviderHostRequired
    else if errorsIs e (.sentinel .metricErrProviderPortRequired) then ErrMetricProviderPortRequired
    else if errorsIs e (.sentinel .metricErrProviderPortInvalid) then ErrMetricProviderPortInvalid
    else if errorsIs e (.sentinel .metricErrIntervalInvalid) then ErrMetricIntervalInvalid
    else .wrap message e

/-! Basic facts about `errors.Is` on this error algebra: a non-wrap target is
matched exactly when it is the leaf of the unwrap chain. -/

theorem errorsIs_sentinel_iff (e : GoError) (s : Sentinel) :
    errorsIs e (.sentinel s) = true ↔ errorLeaf e = .sentinel s := by
  induction e with
  | sentinel s' => simp [errorsIs, errorLeaf]
  | errorf m => simp [errorsIs, errorLeaf]
  | wrap m inner ih => simp [errorsIs, errorLeaf, ih]

theorem errorsIs_sentinel_unique (e : GoError) (s t : Sentinel)
    (hs : errorsIs e (.sentinel s) = true) (ht : errorsIs e (.sentinel t) = true) :
    s = t := by
  rw [errorsIs_sentinel_iff] at hs ht
  rw [hs] at ht
  injection ht

/-! ## Configuration: functional options (src/options.go)

`time.Duration` is a signed 64-bit count of nanoseconds; durations are
modelled as `Int`.  `float64` sample ratios are modelled as rationals. -/

/-- `time.Second` in nanoseconds. -/
def goSecond : Int := 1000000000

/-- `Options` (src/options.go lines 7-25). -/
structure Options where
  ServiceName : String := ""
  Environment : String := ""
  InstanceName : String := ""
  InstanceHost : String := ""
  LoggerLevel : String := ""
  LoggerOutputPath : String := ""
  TracerProvider : String := ""
  TracerProviderHost : String := ""
  TracerProviderPort : Int := 0
  TracerSampleRatio : ℚ := 0
  TracerBatchTimeout : Int := 0
  TracerInsecure : Bool := false
  MetricProvider : String := ""
  MetricProviderHost : String := ""
  MetricProviderPort : Int := 0
  MetricInterval : Int := 0
  MetricInsecure : Bool := false
  deriving DecidableEq, Repr

/-- An `Option` is a configuration mutator (src/options.go line 29). -/
abbrev ConfigOption := Options → Options

def WithServiceName (name : String) : ConfigOption :=
  fun o => { o with ServiceName := name }

def WithEnvironment (env : String) : ConfigOption :=
  fun o => { o with Environment := env }

def WithInstance (name host : String) : ConfigOption :=
  fun o => { o with InstanceName := name, InstanceHost := host }

def WithLoggerLevel (level : String) : ConfigOption :=
  fun o => { o with LoggerLevel := level }

def WithLoggerOutputPath (path : String) : ConfigOption :=
  fun o => { o with LoggerOutputPath := path }

def WithTracerProvider (provider host : String) (port : Int) : ConfigOption :=
  fun o => { o with TracerProvider := provider, TracerProviderHost := host,
                    TracerProviderPort := port }

def WithTracerSampleRatio (ratio : ℚ) : ConfigOption :=
  fun o => { o with TracerSampleRatio := ratio }

def WithTracerBatchTimeout (timeout : Int) : ConfigOption :=
  fun o => { o with TracerBatchTimeout := timeout }

def WithTracerInsecure (insecure : Bool) : ConfigOption :=
  fun o => { o with TracerInsecure := insecure }

def WithMetricProvider (provider host : String) (port : Int) : ConfigOption :=
  fun o => { o with MetricProvider := provider, MetricProviderHost := host,
                    MetricProviderPort := port }

def WithMetricInterval (interval : Int) : ConfigOption :=
  fun o => { o with MetricInterval := interval }

def WithMetricInsecure (insecure : Bool) : ConfigOption :=
  fun o => { o with MetricInsecure := insecure }

/-- `defaultOptions` (src/options.go lines 271-282). -/
def defaultOptions : Options :=
  { Environment := "development"
    LoggerLevel := "info"
    LoggerOutputPath := ""
    TracerProvider := "stdout"
    TracerSampleRatio := 1
    TracerBatchTimeout := 5 * goSecond
    MetricProvider := "stdout"
    MetricInterval := 60 * goSecond }

/-- `parseOptions` (src/registry.go lines 14-20): applies the provided
functional options, in order, to a copy of the default options. -/
def parseOptions (opts : List ConfigOption) : Options :=
  opts.foldl (fun options opt => opt options) defaultOptions

/-! ## Lifecycle orchestrator (src/registry.go `NewMonitoring`)

The three component constructors (`logger.NewLogger`, `tracer.NewTracer`,
`metric.NewMetric`) and the two cleanup calls (`Tracer.Shutdown`,
`Logger.Sync`) perform I/O, so the orchestrator is embedded as a function of
their outcomes.  Every backend call the orchestrator makes is recorded, in
call order, in an event trace. -/

abbrev LoggerHandle := Nat

abbrev TracerHandle := Nat

abbrev MetricHandle := Nat

/-- `Monitoring` (src/monitoring.go): the aggregate handle. -/
structure Monitoring where
  Logger : LoggerHandle
  Tracer : TracerHandle
  Metric : MetricHandle
  deriving DecidableEq, Repr

/-- Outcomes of the effectful backend calls `NewMonitoring` may perform. -/
structure InitOutcomes where
  loggerResult : Except GoError LoggerHandle
  tracerResult : Except GoError TracerHandle
  metricResult : Except GoError MetricHandle
  tracerShutdownResult : Option GoError
  loggerSyncResult : Option GoError
  deriving Repr

/-- One backend call made by `NewMonitoring`. -/
inductive Event where
  | loggerNewLogger
  | tracerNewTracer
  | metricNewMetric
  | tracerShutdown
  | loggerSync
  deriving DecidableEq, Repr

/-- `NewMonitoring` (src/registry.go lines 219-279), returning the Go result
(`(*Monitoring, error)` as an `Except`) together with the trace of backend
calls made, in order. -/
def NewMonitoring (backend : InitOutcomes) (opts : List ConfigOption) :
    Except GoError Monitoring × List Event :=
  let options := parseOptions opts
  -- Validate required options
  if options.ServiceName = "" then
    (.error ErrServiceNameRequired, [])
  else
    -- Initialize logger
    match backend.loggerResult with
    | .error err =>
        (.error (parseError (some err) "failed to initialize logger"),
         [.loggerNewLogger])
    | .ok loggerInstance =>
      -- Initialize tracer
      match backend.tracerResult with
      | .error err =>
          -- Cleanup logger before returning; the Sync error is discarded
          (.error (parseError (some err) "failed to initialize tracer"),
           [.loggerNewLogger, .tracerNewTracer, .loggerSync])
      | .ok tracerInstance =>
        -- Initialize metric
        match backend.metricResult with
        | .error err =>
            -- Cleanup tracer and logger before returning (in reverse order of
            -- initialization); both cleanup errors are discarded
            (.error (parseError (some err) "failed to initialize metric"),
             [.loggerNewLogger, .tracerNewTracer, .metricNewMetric,
              .tracerShutdown, .loggerSync])
        | .ok metricInstance =>
            (.ok { Logger := loggerInstance, Tracer := tracerInstance,
                   Metric := metricInstance },
             [.loggerNewLogger, .tracerNewTracer, .metricNewMetric])

/-! ## Metric initializer validation (src/internal/metric/registry.go)

`metric.NewMetric` first resolves its own functional options over the package
defaults, validates the export interval, creates the resource (effectful,
assumed to succeed), then dispatches on the provider, validating the OTLP
host and port before building the OTLP exporter.  The embedding captures the
pure validation-and-dispatch prefix: `backendStdout`/`backendOtlp` mark the
hand-off to the effectful exporter construction. -/

/-- `metric.Options` (src/internal/metric/option.go lines 7-17). -/
structure MetricOptions where
  ServiceName : String := ""
  Environment : String := ""
  InstanceName : String := ""
  InstanceHost : String := ""
  Provider : String := ""
  ProviderHost : String := ""
  ProviderPort : Int := 0
  Interval : Int := 0
  Insecure : Bool := false
  deriving DecidableEq, Repr

/-- Outcome of the validation-and-dispatch prefix of an initializer: either a
validation error returned before any backend construction, or the hand-off to
one of the exporter backends. -/
inductive InitDispatch (σ : Type) where
  | fail (e : GoError)
  | backendStdout (options : σ)
  | backendOtlp (options : σ)
  deriving DecidableEq, Repr

/-- `metric.NewMetric` defaults (src/internal/metric/registry.go lines 48-51). -/
def metricDefaultOptions : MetricOptions :=
  { Provider := "stdout", Interval := 60 * goSecond }

/-- The validation-and-dispatch prefix of `metric.NewMetric`
(src/internal/metric/registry.go lines 47-106) over the resolved options. -/
def NewMetricCore (options : MetricOptions) : InitDispatch MetricOptions :=
  -- validate interval
  if options.Interval ≤ 0 then .fail ErrMetricIntervalInvalid
  -- resource creation (effectful, assumed to succeed), then the provider switch
  else if options.Provider = "stdout" then .backendStdout options
  else if options.Provider = "otlp" then
    if options.ProviderHost = "" then .fail ErrMetricProviderHostRequired
    else if options.ProviderPort = 0 then .fail ErrMetricProviderPortRequired
    else if options.ProviderPort < 0 then .fail ErrMetricProviderPortInvalid
    else .backendOtlp options
  else .fail ErrMetricInvalidProvider

/-- `metric.NewMetric` on a list of `metric.Option` mutators. -/
def NewMetric (opts : List (MetricOptions → MetricOptions)) : InitDispatch MetricOptions :=
  NewMetricCore (opts.foldl (fun options opt => opt options) metricDefaultOptions)

/-! ## Tracer initializer validation

The current internal tracer constructor is absent from src/ — src/ holds only
its sentinel declarations (src/unnamed/part_016 lines 5-12), its option
mutators (src/unnamed/part_015) and its tests
(src/internal/tracer/registry_test.go), plus an older revision without
validation (src/unnamed/part_014). -/

/-- `tracer.Options` (src/unnamed/part_015). -/
structure TracerOptions where
  ServiceName : String := ""
  Environment : String := ""
  InstanceName : String := ""
  InstanceHost : String := ""
  Provider : String := ""
  ProviderHost : String := ""
  ProviderPort : Int := 0
  SampleRatio : ℚ := 0
  BatchTimeout : Int := 0
  Insecure : Bool := false
  deriving DecidableEq, Repr

/-- `tracer.NewTracer` defaults (src/unnamed/part_014 lines 92-96). -/
def tracerDefaultOptions : TracerOptions :=
  { Provider := "stdout", SampleRatio := 1, BatchTimeout := 5 * goSecond }

/-- Modelled from the spec: the validation-and-dispatch prefix of the current
`tracer.NewTracer`, whose source file is missing from src/.  Per the spec
(§4.5) each initializer validates provider-specific required fields before
delegating to its backend — a remote provider requires a non-empty host and a
positive port, and the timeout field must be positive — and per the in-repo
tests (src/internal/tracer/registry_test.go lines 58-119) a zero port maps to
`ErrProviderPortRequired`, a negative port to `ErrProviderPortInvalid`, a
non-positive batch timeout to `ErrBatchTimeoutInvalid` (also under the default
stdout provider), and an unknown provider to `ErrInvalidProvider`. -/
def NewTracerCore (options : TracerOptions) : InitDispatch TracerOptions :=
  if options.BatchTimeout ≤ 0 then .fail ErrTracerBatchTimeoutInvalid
  else if options.Provider = "stdout" then .backendStdout options
  else if options.Provider = "otlp" then
    if options.ProviderHost = "" then .fail ErrTracerProviderHostRequired
    else if options.ProviderPort = 0 then .fail ErrTracerProviderPortRequired
    else if options.ProviderPort < 0 then .fail ErrTracerProviderPortInvalid
    else .backendOtlp options
  else .fail ErrTracerInvalidProvider

/-- `tracer.NewTracer` on a list of `tracer.Option` mutators. -/
def NewTracer (opts : List (TracerOptions → TracerOptions)) : InitDispatch TracerOptions :=
  NewTracerCore (opts.foldl (fun options opt => opt options) tracerDefaultOptions)

/-! ## Sampling policy selector (src/tracer.go lines 171-180)

The sampler switch inside `NewTracer`:
`ratio <= 0` → `NeverSample`, `ratio >= 1.0` → `AlwaysSample`, otherwise
`TraceIDRatioBased(ratio)`.  The spec names this pure function
`selectSampler`. -/

/-- The three OpenTelemetry sampler policies the switch can pick. -/
inductive Sampler where
  | neverSample
  | alwaysSample
  | traceIDRatioBased (ratio : ℚ)
  deriving DecidableEq, Repr

/-- `selectSampler` (the switch at src/tracer.go lines 171-180 and
src/unnamed/part_014 lines 143-152). -/
def selectSampler (ratio : ℚ) : Sampler :=
  if ratio ≤ 0 then .neverSample
  else if ratio ≥ 1 then .alwaysSample
  else .traceIDRatioBased ratio

/-! ## Logger level changes (src/internal/logger/logger.go lines 29-37)

`SetLogLevel` parses the level with `zapcore.ParseLevel`; on a parse failure
it logs an informational message, falls back to `InfoLevel`, and still
returns nil. -/

/-- `zapcore.Level`. -/
inductive LogLevel where
  | debugLevel
  | infoLevel
  | warnLevel
  | errorLevel
  | dpanicLevel
  | panicLevel
  | fatalLevel
  deriving DecidableEq, Repr

/-- `zapcore.ParseLevel` (zap's `Level.UnmarshalText`): recognizes the
lower-case and upper-case spellings, and the empty string as info;
anything else is an error (`none`). -/
def parseLevel (text : String) : Option LogLevel :=
  if text = "debug" ∨ text = "DEBUG" then some .debugLevel
  else if text = "info" ∨ text = "INFO" ∨ text = "" then some .infoLevel
  else if text = "warn" ∨ text = "WARN" then some .warnLevel
  else if text = "error" ∨ text = "ERROR" then some .errorLevel
  else if text = "dpanic" ∨ text = "DPANIC" then some .dpanicLevel
  else if text = "panic" ∨ text = "PANIC" then some .panicLevel
  else if text = "fatal" ∨ text = "FATAL" then some .fatalLevel
  else none

/-- The mutable state of the logger that `SetLogLevel` touches: the atomic
level. -/
structure LoggerState where
  level : LogLevel
  deriving DecidableEq, Repr

/-- `logger.SetLogLevel` (src/internal/logger/logger.go lines 29-37, same body
as `Logger.SetLogLevel` in src/logger.go lines 100-108): returns the new
logger state and the returned Go error.  On a parse failure the level falls
back to `InfoLevel` (after logging a message, a side effect outside this
state) and the function still returns nil. -/
def SetLogLevel (l : LoggerState) (level : String) : LoggerState × Option GoError :=
  match parseLevel level with
  | some logLevel => ({ l with level := logLevel }, none)
  | none => ({ l with level := .infoLevel }, none)

/-! ## Byte strings

Go strings are immutable byte sequences; the carrier layer inspects and
rewrites individual bytes (`strings.ToLower`, header canonicalization,
`traceparent` hex fields), so strings on this layer are modelled as lists of
bytes. -/

/-- A Go string as a byte sequence. -/
abbrev GoStr := List Nat

/-- Bytes of an ASCII string literal. -/
def bytesOfString (s : String) : GoStr := s.data.map Char.toNat

/-- Lower-case one ASCII byte. -/
def toLowerByte (b : Nat) : Nat := if 65 ≤ b ∧ b ≤ 90 then b + 32 else b

/-- Upper-case one ASCII byte. -/
def toUpperByte (b : Nat) : Nat := if 97 ≤ b ∧ b ≤ 122 then b - 32 else b

/-- `strings.ToLower` on the ASCII range (Go lower-cases full Unicode; every
key this code lower-cases is ASCII). -/
def goToLower (s : GoStr) : GoStr := s.map toLowerByte

/-! ## `net/textproto` header-key canonicalization

`propagation.HeaderCarrier` is `http.Header`; its `Set` and `Get` pass the
key through `textproto.CanonicalMIMEHeaderKey`: if any byte is not a valid
header-field byte the key is returned unchanged, otherwise the first byte and
every byte following a `-` are upper-cased and all other bytes are
lower-cased. -/

/-- `textproto.validHeaderFieldByte`: letters, digits, and
`!#$%&'*+-.^_`|~`. -/
def validHeaderFieldByte (b : Nat) : Bool :=
  decide ((48 ≤ b ∧ b ≤ 57) ∨ (65 ≤ b ∧ b ≤ 90) ∨ (97 ≤ b ∧ b ≤ 122)) ||
  decide (b ∈ [33, 35, 36, 37, 38, 39, 42, 43, 45, 46, 94, 95, 96, 124, 126])

/-- The canonicalization loop: `upper` tells whether the next byte starts a
word (it does at the start and right after a `-`, byte 45). -/
def canonicalizeBytes : Bool → GoStr → GoStr
  | _, [] => []
  | upper, b :: rest =>
      (if upper then toUpperByte b else toLowerByte b) ::
        canonicalizeBytes (b = 45) rest

/-- `textproto.CanonicalMIMEHeaderKey`. -/
def canonicalMIMEHeaderKey (k : GoStr) : GoStr :=
  if k.all validHeaderFieldByte then canonicalizeBytes true k else k

/-! ## String-keyed maps: gRPC metadata and `http.Header`

`metadata.MD` and `http.Header` are both `map[string][]string`; both are
modelled as association lists where an insert replaces the entry of an
existing key.  (Go map iteration order is unspecified; the list order is a
deterministic refinement.) -/

/-- `map[string][]string`. -/
abbrev StrMap := List (GoStr × List GoStr)

/-- `m[k] = vs`: replace the entry of `k`, or append a new one. -/
def mapSet (m : StrMap) (k : GoStr) (vs : List GoStr) : StrMap :=
  match m with
  | [] => [(k, vs)]
  | (k', vs') :: rest =>
      if k' = k then (k, vs) :: rest else (k', vs') :: mapSet rest k vs

/-- `m[k]`: the values of a key; the Go zero value (no values) if absent. -/
def mapGet (m : StrMap) (k : GoStr) : List GoStr :=
  match m with
  | [] => []
  | (k', vs) :: rest => if k' = k then vs else mapGet rest k

/-- `http.Header.Set` via `propagation.HeaderCarrier.Set`: canonicalize the
key and replace its values with the single given value. -/
def hcSet (c : StrMap) (k : GoStr) (v : GoStr) : StrMap :=
  mapSet c (canonicalMIMEHeaderKey k) [v]

/-- `http.Header.Get` via `propagation.HeaderCarrier.Get`: canonicalize the
key and return the first value, or the empty string if none (Go returns `""`
both for a missing key and for an empty value list). -/
def hcGet (c : StrMap) (k : GoStr) : GoStr :=
  match mapGet c (canonicalMIMEHeaderKey k) with
  | [] => []
  | v :: _ => v

/-! ## The W3C `traceparent` propagator (`propagation.TraceContext`)

The OpenTelemetry `TraceContext` propagator is an external collaborator of
this repository; it is embedded concretely: `Inject` writes the
`traceparent` header `"00-" ++ hex32 traceID ++ "-" ++ hex16 spanID ++ "-" ++
hex2 flags` for a valid span context, and `Extract` parses it back,
accepting only lower-case hex, requiring non-zero trace and span ids, and
keeping only the sampled bit of the flags.  (The optional `tracestate`
header carries vendor data independent of the trace identity and is outside
this model.) -/

/-- `trace.SpanContext`, reduced to the identity fields the carrier
round-trips: trace id (16 bytes), span id (8 bytes), trace flags (1 byte). -/
structure SpanContext where
  traceID : Nat
  spanID : Nat
  traceFlags : Nat
  deriving DecidableEq, Repr

/-- `SpanContext.IsValid`: non-zero trace id and span id. -/
def SpanContext.isValid (sc : SpanContext) : Bool :=
  decide (sc.traceID ≠ 0) && decide (sc.spanID ≠ 0)

/-- Structural bounds that hold of every Go `SpanContext` by construction
(the ids and flags are fixed-size byte arrays). -/
def SpanContext.wellFormed (sc : SpanContext) : Prop :=
  sc.traceID < 16 ^ 32 ∧ sc.spanID < 16 ^ 16 ∧ sc.traceFlags < 16 ^ 2

/-- A Go `context.Context`, reduced to the span slot the propagator reads and
writes (`trace.SpanContextFromContext` / `trace.ContextWithRemoteSpanContext`). -/
abbrev Ctx := Option SpanContext

/-- Lower-case hex digit of a value below 16. -/
def hexDigit (n : Nat) : Nat := if n < 10 then 48 + n else 87 + n

/-- Fixed-width lower-case hex encoding (`%032x` and friends). -/
def hexEncode : Nat → Nat → GoStr
  | 0, _ => []
  | w + 1, v => hexEncode w (v / 16) ++ [hexDigit (v % 16)]

/-- Value of a lower-case hex digit byte (`[0-9a-f]`, as in the propagator's
regular expression; upper-case hex is rejected). -/
def hexVal (b : Nat) : Option Nat :=
  if 48 ≤ b ∧ b ≤ 57 then some (b - 48)
  else if 97 ≤ b ∧ b ≤ 102 then some (b - 87)
  else none

/-- Parse a hex byte string left to right. -/
def parseHexAux : GoStr → Nat → Option Nat
  | [], acc => some acc
  | b :: rest, acc =>
      match hexVal b with
      | some d => parseHexAux rest (acc * 16 + d)
      | none => none

/-- Parse a hex field of exactly `w` digits. -/
def parseHexField (w : Nat) (s : GoStr) : Option Nat :=
  if s.length = w then parseHexAux s 0 else none

/-- The byte `-`. -/
def dashByte : Nat := 45

/-- The value `TraceContext.Inject` writes under the `traceparent` key:
`version "00"`, trace id, span id and flags as lower-case hex, separated by
dashes. -/
def traceparentValue (sc : SpanContext) : GoStr :=
  hexEncode 2 0 ++ [dashByte] ++ hexEncode 32 sc.traceID ++ [dashByte] ++
    hexEncode 16 sc.spanID ++ [dashByte] ++ hexEncode 2 sc.traceFlags

/-- `TraceContext.extract`'s parse of a `traceparent` value: two hex digits
of version, 32 of trace id, 16 of span id, 2 of flags, dash-separated;
version `ff` is rejected; version `00` admits no trailing bytes, a later
version admits a dash-led suffix; the ids must be non-zero; only the sampled
bit of the flags is kept. -/
def parseTraceparent (h : GoStr) : Option SpanContext :=
  if h.length < 55 then none
  else if (h.drop 2).take 1 ≠ [dashByte] then none
  else if (h.drop 35).take 1 ≠ [dashByte] then none
  else if (h.drop 52).take 1 ≠ [dashByte] then none
  else
    match parseHexField 2 (h.take 2), parseHexField 32 ((h.drop 3).take 32),
          parseHexField 16 ((h.drop 36).take 16), parseHexField 2 ((h.drop 53).take 2) with
    | some version, some traceID, some spanID, some flags =>
        if version = 255 then none
        else if version = 0 ∧ h.length ≠ 55 then none
        else if h.length > 55 ∧ (h.drop 55).take 1 ≠ [dashByte] then none
        else if traceID = 0 then none
        else if spanID = 0 then none
        else some { traceID := traceID, spanID := spanID, traceFlags := flags % 2 }
    | _, _, _, _ => none

/-- The `traceparent` header name as the propagator spells it. -/
def traceparentHeader : GoStr := bytesOfString "traceparent"

/-- `TraceContext.Inject`: write the `traceparent` header through the
carrier's `Set` when the context holds a valid span context; otherwise write
nothing. -/
def traceContextInject (ctx : Ctx) (carrier : StrMap) : StrMap :=
  match ctx with
  | none => carrier
  | some sc =>
      if sc.isValid then hcSet carrier traceparentHeader (traceparentValue sc)
      else carrier

/-- `TraceContext.Extract`: parse the `traceparent` header read through the
carrier's `Get`; on success the returned context carries the remote span
context, otherwise the base context is returned unchanged. -/
def traceContextExtract (ctx : Ctx) (carrier : StrMap) : Ctx :=
  match parseTraceparent (hcGet carrier traceparentHeader) with
  | some sc => some sc
  | none => ctx

/-! ## The carrier adapter (src/internal/tracer/tracer_test.go second
document, lines 486-523; same bodies in src/tracer.go lines 311-348) -/

/-- `tracer.InjectContext`: let the propagator write into a fresh metadata
map through a `HeaderCarrier`, then copy every entry under a lower-cased
key. -/
def InjectContext (ctx : Ctx) : StrMap :=
  let md := traceContextInject ctx []
  -- Force metadata keys to lowercase
  md.foldl (fun mdLower kv => mapSet mdLower (goToLower kv.1) kv.2) []

/-- `tracer.ExtractContext`: copy the first value of every non-empty metadata
entry into a `HeaderCarrier` via `Set`, then run the propagator's extract on
it. -/
def ExtractContext (ctx : Ctx) (md : StrMap) : Ctx :=
  let carrier := md.foldl
    (fun carrier kv =>
      match kv.2 with
      | [] => carrier
      | v :: _ => hcSet carrier kv.1 v)
    []
  traceContextExtract ctx carrier

/-! ## Supporting lemmas -/

theorem toLowerByte_idem (b : Nat) : toLowerByte (toLowerByte b) = toLowerByte b := by
  unfold toLowerByte
  split
  · rw [if_neg (by omega)]
  · rfl

theorem goToLower_idem (s : GoStr) : goToLower (goToLower s) = goToLower s := by
  induction s with
  | nil => rfl
  | cons b rest ih =>
      simp only [goToLower, List.map_cons] at ih ⊢
      rw [toLowerByte_idem, ih]

theorem mem_mapSet (m : StrMap) (k k' : GoStr) (vs vs' : List GoStr)
    (h : (k', vs') ∈ mapSet m k vs) : k' = k ∨ ∃ vs'', (k', vs'') ∈ m := by
  induction m with
  | nil =>
      simp only [mapSet, List.mem_singleton, Prod.mk.injEq] at h
      exact Or.inl h.1
  | cons kv rest ih =>
      obtain ⟨k0, vs0⟩ := kv
      simp only [mapSet] at h
      by_cases hk : k0 = k
      · rw [if_pos hk] at h
        rcases List.mem_cons.mp h with heq | hmem
        · rw [Prod.mk.injEq] at heq
          exact Or.inl heq.1
        · exact Or.inr ⟨vs', List.mem_cons_of_mem _ hmem⟩
      · rw [if_neg hk] at h
        rcases List.mem_cons.mp h with heq | hmem
        · rw [Prod.mk.injEq] at heq
          exact Or.inr ⟨vs0, by rw [heq.1]; exact List.mem_cons_self _ _⟩
        · rcases ih hmem with heq' | ⟨vs'', hmem'⟩
          · exact Or.inl heq'
          · exact Or.inr ⟨vs'', List.mem_cons_of_mem _ hmem'⟩

theorem mem_foldl_mapSet_lower (md : StrMap) (acc : StrMap) (k' : GoStr)
    (vs' : List GoStr)
    (h : (k', vs') ∈ md.foldl (fun m kv => mapSet m (goToLower kv.1) kv.2) acc) :
    (∃ vs'', (k', vs'') ∈ acc) ∨ ∃ kv ∈ md, k' = goToLower kv.1 := by
  induction md generalizing acc with
  | nil => exact Or.inl ⟨vs', h⟩
  | cons kv rest ih =>
      simp only [List.foldl_cons] at h
      rcases ih _ h with ⟨vs'', hmem⟩ | ⟨kv0, hkv0, hk⟩
      · rcases mem_mapSet _ _ _ _ _ hmem with heq | ⟨vs₃, hmem'⟩
        · exact Or.inr ⟨kv, List.mem_cons_self _ _, heq⟩
        · exact Or.inl ⟨vs₃, hmem'⟩
      · exact Or.inr ⟨kv0, List.mem_cons_of_mem _ hkv0, hk⟩

theorem hexEncode_length (w v : Nat) : (hexEncode w v).length = w := by
  induction w generalizing v with
  | zero => rfl
  | succ w ih => simp [hexEncode, ih]

theorem hexVal_hexDigit (n : Nat) (h : n < 16) : hexVal (hexDigit n) = some n := by
  rcases Nat.lt_or_ge n 10 with h10 | h10
  · rw [hexDigit, if_pos h10, hexVal, if_pos (by omega)]
    congr 1
    omega
  · rw [hexDigit, if_neg (by omega), hexVal, if_neg (by omega), if_pos (by omega)]
    congr 1
    omega

theorem parseHexAux_append (xs ys : GoStr) (acc : Nat) :
    parseHexAux (xs ++ ys) acc =
      match parseHexAux xs acc with
      | some a => parseHexAux ys a
      | none => none := by
  induction xs generalizing acc with
  | nil => rfl
  | cons b rest ih => cases h : hexVal b <;> simp [parseHexAux, h, ih]

theorem parseHexAux_hexEncode (w v acc : Nat) (h : v < 16 ^ w) :
    parseHexAux (hexEncode w v) acc = some (acc * 16 ^ w + v) := by
  induction w generalizing v acc with
  | zero =>
      norm_num at h
      subst h
      simp [hexEncode, parseHexAux]
  | succ w ih =>
      have h16 : (16 : Nat) ^ (w + 1) = 16 ^ w * 16 := pow_succ 16 w
      have hdiv : v / 16 < 16 ^ w := by rw [h16] at h; omega
      have hmod : v % 16 < 16 := Nat.mod_lt _ (by norm_num)
      calc parseHexAux (hexEncode (w + 1) v) acc
          = parseHexAux (hexEncode w (v / 16) ++ [hexDigit (v % 16)]) acc := rfl
        _ = parseHexAux [hexDigit (v % 16)] (acc * 16 ^ w + v / 16) := by
              rw [parseHexAux_append, ih (v / 16) acc hdiv]
        _ = some ((acc * 16 ^ w + v / 16) * 16 + v % 16) := by
              simp [parseHexAux, hexVal_hexDigit _ hmod]
        _ = some (acc * 16 ^ (w + 1) + v) := by
              congr 1
              have hvdm := Nat.div_add_mod v 16
              calc (acc * 16 ^ w + v / 16) * 16 + v % 16
                  = acc * (16 ^ w * 16) + (16 * (v / 16) + v % 16) := by ring
                _ = acc * 16 ^ (w + 1) + v := by rw [hvdm, ← h16]

theorem parseHexField_hexEncode (w v : Nat) (h : v < 16 ^ w) :
    parseHexField w (hexEncode w v) = some v := by
  rw [parseHexField, if_pos (hexEncode_length w v)]
  simpa using parseHexAux_hexEncode w v 0 h

theorem parseTraceparent_concat (B C D : GoStr)
    (hB : B.length = 32) (hC : C.length = 16) (hD : D.length = 2)
    (tid sid flg : Nat)
    (hpB : parseHexAux B 0 = some tid) (hpC : parseHexAux C 0 = some sid)
    (hpD : parseHexAux D 0 = some flg)
    (htz : tid ≠ 0) (hsz : sid ≠ 0) :
    parseTraceparent (hexEncode 2 0 ++ [dashByte] ++ B ++ [dashByte] ++ C ++
        [dashByte] ++ D) =
      some { traceID := tid, spanID := sid, traceFlags := flg % 2 } := by
  have hAlen : (hexEncode 2 0).length = 2 := hexEncode_length 2 0
  set h : GoStr := hexEncode 2 0 ++ [dashByte] ++ B ++ [dashByte] ++ C ++
      [dashByte] ++ D with hh
  have hre : h = hexEncode 2 0 ++
      ([dashByte] ++ (B ++ ([dashByte] ++ (C ++ ([dashByte] ++ D))))) := by
    rw [hh]
    simp [List.append_assoc]
  have hlen : h.length = 55 := by
    rw [hh]
    simp [hB, hC, hD, hAlen]
  have d2 : h.drop 2 = [dashByte] ++ (B ++ ([dashByte] ++ (C ++ ([dashByte] ++ D)))) := by
    rw [hre]
    exact List.drop_left' hAlen
  have t2 : h.take 2 = hexEncode 2 0 := by
    rw [hre]
    exact List.take_left' hAlen
  have sep2 : (h.drop 2).take 1 = [dashByte] := by rw [d2]; rfl
  have d3 : h.drop 3 = B ++ ([dashByte] ++ (C ++ ([dashByte] ++ D))) := by
    have e : (h.drop 2).drop 1 = h.drop 3 := by rw [List.drop_drop]
    rw [← e, d2]
    rfl
  have t32 : (h.drop 3).take 32 = B := by
    rw [d3]
    exact List.take_left' hB
  have d35 : h.drop 35 = [dashByte] ++ (C ++ ([dashByte] ++ D)) := by
    have e : (h.drop 3).drop 32 = h.drop 35 := by rw [List.drop_drop]
    rw [← e, d3]
    exact List.drop_left' hB
  have sep35 : (h.drop 35).take 1 = [dashByte] := by rw [d35]; rfl
  have d36 : h.drop 36 = C ++ ([dashByte] ++ D) := by
    have e : (h.drop 35).drop 1 = h.drop 36 := by rw [List.drop_drop]
    rw [← e, d35]
    rfl
  have t16 : (h.drop 36).take 16 = C := by
    rw [d36]
    exact List.take_left' hC
  have d52 : h.drop 52 = [dashByte] ++ D := by
    have e : (h.drop 36).drop 16 = h.drop 52 := by rw [List.drop_drop]
    rw [← e, d36]
    exact List.drop_left' hC
  have sep52 : (h.drop 52).take 1 = [dashByte] := by rw [d52]; rfl
  have d53 : h.drop 53 = D := by
    have e : (h.drop 52).drop 1 = h.drop 53 := by rw [List.drop_drop]
    rw [← e, d52]
    rfl
  have t53 : (h.drop 53).take 2 = D := by
    rw [d53, ← hD]
    exact List.take_length D
  have hpB' : parseHexField 32 ((h.drop 3).take 32) = some tid := by
    rw [t32, parseHexField, if_pos hB]
    exact hpB
  have hpC' : parseHexField 16 ((h.drop 36).take 16) = some sid := by
    rw [t16, parseHexField, if_pos hC]
    exact hpC
  have hpD' : parseHexField 2 ((h.drop 53).take 2) = some flg := by
    rw [t53, parseHexField, if_pos hD]
    exact hpD
  have hpV : parseHexField 2 (h.take 2) = some 0 := by rw [t2]; rfl
  rw [parseTraceparent]
  rw [if_neg (by omega)]
  rw [if_neg (by simp [sep2])]
  rw [if_neg (by simp [sep35])]
  rw [if_neg (by simp [sep52])]
  rw [hpV, hpB', hpC', hpD']
  simp only []
  rw [if_neg (by norm_num)]
  rw [if_neg (by simp [hlen])]
  rw [if_neg (by simp [hlen])]
  rw [if_neg htz]
  rw [if_neg hsz]

theorem spanContext_isValid_iff (sc : SpanContext) :
    sc.isValid = true ↔ sc.traceID ≠ 0 ∧ sc.spanID ≠ 0 := by
  simp [SpanContext.isValid]

theorem parseTraceparent_traceparentValue (sc : SpanContext)
    (hwf : sc.wellFormed) (hv : sc.isValid = true) :
    parseTraceparent (traceparentValue sc) =
      some { traceID := sc.traceID, spanID := sc.spanID,
             traceFlags := sc.traceFlags % 2 } := by
  obtain ⟨ht, hs, hf⟩ := hwf
  obtain ⟨htz, hsz⟩ := (spanContext_isValid_iff sc).mp hv
  exact parseTraceparent_concat
    (hexEncode 32 sc.traceID) (hexEncode 16 sc.spanID) (hexEncode 2 sc.traceFlags)
    (hexEncode_length 32 sc.traceID) (hexEncode_length 16 sc.spanID)
    (hexEncode_length 2 sc.traceFlags)
    sc.traceID sc.spanID sc.traceFlags
    (by simpa using parseHexAux_hexEncode 32 sc.traceID 0 ht)
    (by simpa using parseHexAux_hexEncode 16 sc.spanID 0 hs)
    (by simpa using parseHexAux_hexEncode 2 sc.traceFlags 0 hf)
    htz hsz

theorem injectContext_some_valid (sc : SpanContext) (hv : sc.isValid = true) :
    InjectContext (some sc) = [(traceparentHeader, [traceparentValue sc])] := by
  have hkey : goToLower (canonicalMIMEHeaderKey traceparentHeader) =
      traceparentHeader := by decide
  simp [InjectContext, traceContextInject, hv, hcSet, mapSet, hkey]

theorem extractContext_traceparent_single (ctx : Ctx) (v : GoStr) :
    ExtractContext ctx [(traceparentHeader, [v])] =
      match parseTraceparent v with
      | some sc => some sc
      | none => ctx := by
  simp [ExtractContext, hcSet, traceContextExtract, hcGet, mapGet]

/-- The body of `ExtractContext`'s loop over the metadata entries. -/
def carrierStep (carrier : StrMap) (kv : GoStr × List GoStr) : StrMap :=
  match kv.2 with
  | [] => carrier
  | v :: _ => hcSet carrier kv.1 v

theorem extractContext_eq_foldl (ctx : Ctx) (md : StrMap) :
    ExtractContext ctx md = traceContextExtract ctx (md.foldl carrierStep []) := rfl

theorem foldl_carrierStep_take_one (md : StrMap) (acc : StrMap) :
    (md.map fun kv => (kv.1, kv.2.take 1)).foldl carrierStep acc =
      md.foldl carrierStep acc := by
  induction md generalizing acc with
  | nil => rfl
  | cons kv rest ih =>
      obtain ⟨k, vs⟩ := kv
      cases vs with
      | nil => simpa [carrierStep] using ih acc
      | cons v t => simpa [carrierStep] using ih (hcSet acc k v)

theorem foldl_carrierStep_filter_empty (md : StrMap) (acc : StrMap) :
    (md.filter fun kv => !kv.2.isEmpty).foldl carrierStep acc =
      md.foldl carrierStep acc := by
  induction md generalizing acc with
  | nil => rfl
  | cons kv rest ih =>
      obtain ⟨k, vs⟩ := kv
      cases vs with
      | nil => simpa [List.filter, carrierStep] using ih acc
      | cons v t => simpa [List.filter, carrierStep] using ih (hcSet acc k v)

/-! ## Claims -/

/-- C1: for every configuration in which the logger and tracer initializers
succeed but the metric initializer returns an error, `NewMonitoring` invokes
the tracer's `Shutdown` and then the logger's `Sync` (in that order) before
returning, discards any errors from those two cleanup calls (the result does
not depend on `tracerShutdownResult` or `loggerSyncResult`, which are
universally quantified here), and returns a nil `Monitoring` handle together
with the mapped metric error. -/
theorem C1_metric_failure_rollback (backend : InitOutcomes)
    (opts : List ConfigOption) (lh : LoggerHandle) (th : TracerHandle)
    (err : GoError)
    (hname : (parseOptions opts).ServiceName ≠ "")
    (hlog : backend.loggerResult = .ok lh)
    (htr : backend.tracerResult = .ok th)
    (hmet : backend.metricResult = .error err) :
    NewMonitoring backend opts =
      (.error (parseError (some err) "failed to initialize metric"),
       [.loggerNewLogger, .tracerNewTracer, .metricNewMetric,
        .tracerShutdown, .loggerSync]) := by
  simp [NewMonitoring, hname, hlog, htr, hmet]

theorem C1_metric_failure_rollback_witness :
    NewMonitoring
      { loggerResult := .ok 1, tracerResult := .ok 2,
        metricResult := .error (.sentinel .metricErrInvalidProvider),
        tracerShutdownResult := some (.errorf "shutdown failed"),
        loggerSyncResult := some (.errorf "sync failed") }
      [WithServiceName "svc-a"] =
      (.error ErrMetricInvalidProvider,
       [.loggerNewLogger, .tracerNewTracer, .metricNewMetric,
        .tracerShutdown, .loggerSync]) := by
  rw [C1_metric_failure_rollback _ _ 1 2 (.sentinel .metricErrInvalidProvider)
        (by decide) rfl rfl rfl]
  rfl

/-- C2: for every option list whose resolved `ServiceName` is empty,
`NewMonitoring` returns a nil handle and the sentinel `ErrServiceNameRequired`
itself, and makes no backend call at all (empty event trace). -/
theorem C2_service_name_required (backend : InitOutcomes)
    (opts : List ConfigOption)
    (hname : (parseOptions opts).ServiceName = "") :
    NewMonitoring backend opts = (.error ErrServiceNameRequired, []) := by
  simp [NewMonitoring, hname]

theorem C2_service_name_required_witness :
    (parseOptions []).ServiceName = "" ∧
    NewMonitoring
      { loggerResult := .ok 1, tracerResult := .ok 2, metricResult := .ok 3,
        tracerShutdownResult := none, loggerSyncResult := none } [] =
      (.error ErrServiceNameRequired, []) :=
  ⟨rfl, C2_service_name_required _ _ rfl⟩

/-- C5: `parseError` applied to a nil error does not panic (it is a total
function) and returns a fresh error whose message is
`message ++ ": unknown error"`. -/
theorem C5_parse_error_nil (message : String) :
    parseError none message = .errorf (message ++ ": unknown error") ∧
    (parseError none message).message = message ++ ": unknown error" := by
  exact ⟨rfl, rfl⟩

/-- C6: the sampler switch picks the never-sample policy exactly when the
ratio is `≤ 0`, the always-sample policy exactly when it is `≥ 1`, and the
probabilistic policy parameterized by the ratio otherwise. -/
theorem C6_sampler_boundaries (ratio : ℚ) :
    (selectSampler ratio = .neverSample ↔ ratio ≤ 0) ∧
    (selectSampler ratio = .alwaysSample ↔ 1 ≤ ratio) ∧
    (0 < ratio → ratio < 1 →
      selectSampler ratio = .traceIDRatioBased ratio) := by
  by_cases h0 : ratio ≤ 0
  · have h1 : ¬ (1 : ℚ) ≤ ratio := by linarith
    refine ⟨by simp [selectSampler, h0], ?_, ?_⟩
    · simp only [selectSampler, if_pos h0]
      constructor
      · intro hcontra
        cases hcontra
      · intro hcontra
        exact absurd hcontra h1
    · intro hpos
      linarith
  · by_cases h1 : (1 : ℚ) ≤ ratio
    · refine ⟨?_, ?_, ?_⟩
      · simp only [selectSampler, if_neg h0, ge_iff_le, if_pos h1]
        constructor
        · intro hcontra
          cases hcontra
        · intro hcontra
          exact absurd hcontra h0
      · simp [selectSampler, h0, h1]
      · intro _ hlt
        linarith
    · refine ⟨?_, ?_, ?_⟩
      · simp [selectSampler, h0, h1]
      · simp [selectSampler, h0, h1]
      · intro _ _
        simp [selectSampler, h0, h1]

theorem C6_sampler_boundaries_witness :
    selectSampler 0 = .neverSample ∧
    selectSampler (-37 / 10) = .neverSample ∧
    selectSampler 1 = .alwaysSample ∧
    selectSampler 42 = .alwaysSample ∧
    selectSampler (3 / 10) = .traceIDRatioBased (3 / 10) :=
  ⟨(C6_sampler_boundaries 0).1.mpr (by norm_num),
   (C6_sampler_boundaries (-37 / 10)).1.mpr (by norm_num),
   (C6_sampler_boundaries 1).2.1.mpr (by norm_num),
   (C6_sampler_boundaries 42).2.1.mpr (by norm_num),
   (C6_sampler_boundaries (3 / 10)).2.2 (by norm_num) (by norm_num)⟩

/-- C10: `SetLogLevel` returns nil for every input string; when the string
does not parse as a level, the logger's level is set to the info level. -/
theorem C10_set_log_level_total (l : LoggerState) (level : String) :
    (SetLogLevel l level).2 = none ∧
    (parseLevel level = none → (SetLogLevel l level).1.level = .infoLevel) := by
  unfold SetLogLevel
  cases h : parseLevel level <;> simp [h]

theorem C10_set_log_level_total_witness :
    (SetLogLevel { level := .debugLevel } "bogus").2 = none ∧
    (SetLogLevel { level := .debugLevel } "bogus").1.level = .infoLevel :=
  ⟨(C10_set_log_level_total { level := .debugLevel } "bogus").1,
   (C10_set_log_level_total { level := .debugLevel } "bogus").2 rfl⟩

/-- C3: for every non-nil error, if the error matches (`errors.Is`) one of
the known internal sentinels of `parseError`'s table, the mapper returns that
sentinel value itself — the public alias is the identical value, not a
wrapper; for every other non-nil error the mapper returns an error whose
message is `message ++ ": " ++ err.Error()` and from which the original error
is recovered by unwrap. -/
theorem C3_parse_error_sentinel_taxonomy (e : GoError) (message : String) :
    (∀ s : Sentinel, s ∈ parseErrorTable → errorsIs e (.sentinel s) = true →
        parseError (some e) message = .sentinel s) ∧
    ((∀ s : Sentinel, s ∈ parseErrorTable → errorsIs e (.sentinel s) = false) →
        parseError (some e) message = .wrap message e ∧
        (parseError (some e) message).message = message ++ ": " ++ e.message ∧
        goUnwrap (parseError (some e) message) = some e) := by
  constructor
  · intro s hs hmatch
    rw [errorsIs_sentinel_iff] at hmatch
    fin_cases hs <;>
      simp_all [parseError, errorsIs_sentinel_iff, ErrLoggerInvalidLogLevel,
        ErrTracerInvalidProvider, ErrTracerProviderHostRequired,
        ErrTracerProviderPortRequired, ErrTracerProviderPortInvalid,
        ErrTracerBatchTimeoutInvalid, ErrMetricInvalidProvider,
        ErrMetricProviderHostRequired, ErrMetricProviderPortRequired,
        ErrMetricProviderPortInvalid, ErrMetricIntervalInvalid]
  · intro hnone
    have h01 := hnone .loggerErrInvalidLogLevel (by decide)
    have h02 := hnone .tracerErrInvalidProvider (by decide)
    have h03 := hnone .tracerErrProviderHostRequired (by decide)
    have h04 := hnone .tracerErrProviderPortRequired (by decide)
    have h05 := hnone .tracerErrProviderPortInvalid (by decide)
    have h06 := hnone .tracerErrBatchTimeoutInvalid (by decide)
    have h07 := hnone .metricErrInvalidProvider (by decide)
    have h08 := hnone .metricErrProviderHostRequired (by decide)
    have h09 := hnone .metricErrProviderPortRequired (by decide)
    have h10 := hnone .metricErrProviderPortInvalid (by decide)
    have h11 := hnone .metricErrIntervalInvalid (by decide)
    refine ⟨?_, ?_, ?_⟩ <;>
      simp [parseError, h01, h02, h03, h04, h05, h06, h07, h08, h09, h10, h11,
        GoError.message, goUnwrap]

theorem C3_parse_error_sentinel_taxonomy_witness :
    parseError (some (.wrap "building exporter"
        (.sentinel .tracerErrInvalidProvider))) "failed to initialize tracer" =
      ErrTracerInvalidProvider ∧
    parseError (some (.errorf "boom")) "failed to initialize metric" =
      .wrap "failed to initialize metric" (.errorf "boom") ∧
    (parseError (some (.errorf "boom")) "failed to initialize metric").message =
      "failed to initialize metric" ++ ": " ++ "boom" ∧
    goUnwrap (parseError (some (.errorf "boom")) "failed to initialize metric") =
      some (.errorf "boom") := by
  refine ⟨?_, ?_, ?_, ?_⟩
  · exact (C3_parse_error_sentinel_taxonomy _ _).1 .tracerErrInvalidProvider
      (by decide) (by decide)
  · exact ((C3_parse_error_sentinel_taxonomy _ _).2 (by decide)).1
  · exact ((C3_parse_error_sentinel_taxonomy (.errorf "boom") _).2 (by decide)).2.1
  · exact ((C3_parse_error_sentinel_taxonomy _ _).2 (by decide)).2.2

/-- C4: the metric initializer (from src/internal/metric/registry.go) and
the tracer initializer (modelled from the spec, as its current source file is
missing from src/) return the matching validation sentinel before delegating
to backend construction: a non-positive interval/batch timeout fails with the
interval/timeout sentinel; a remote ("otlp") provider with an empty host
fails with the host-required sentinel; a zero port with the port-required
sentinel; a negative port with the port-invalid sentinel. -/
theorem C4_initializer_validation (mo : MetricOptions) (t : TracerOptions) :
    (mo.Interval ≤ 0 → NewMetricCore mo = .fail ErrMetricIntervalInvalid) ∧
    (0 < mo.Interval → mo.Provider = "otlp" → mo.ProviderHost = "" →
        NewMetricCore mo = .fail ErrMetricProviderHostRequired) ∧
    (0 < mo.Interval → mo.Provider = "otlp" → mo.ProviderHost ≠ "" →
        mo.ProviderPort = 0 →
        NewMetricCore mo = .fail ErrMetricProviderPortRequired) ∧
    (0 < mo.Interval → mo.Provider = "otlp" → mo.ProviderHost ≠ "" →
        mo.ProviderPort < 0 →
        NewMetricCore mo = .fail ErrMetricProviderPortInvalid) ∧
    (t.BatchTimeout ≤ 0 → NewTracerCore t = .fail ErrTracerBatchTimeoutInvalid) ∧
    (0 < t.BatchTimeout → t.Provider = "otlp" → t.ProviderHost = "" →
        NewTracerCore t = .fail ErrTracerProviderHostRequired) ∧
    (0 < t.BatchTimeout → t.Provider = "otlp" → t.ProviderHost ≠ "" →
        t.ProviderPort = 0 →
        NewTracerCore t = .fail ErrTracerProviderPortRequired) ∧
    (0 < t.BatchTimeout → t.Provider = "otlp" → t.ProviderHost ≠ "" →
        t.ProviderPort < 0 →
        NewTracerCore t = .fail ErrTracerProviderPortInvalid) := by
  refine ⟨?_, ?_, ?_, ?_, ?_, ?_, ?_, ?_⟩
  · intro hI
    rw [NewMetricCore, if_pos hI]
  · intro hI hp hh
    rw [NewMetricCore, if_neg (by omega), hp, if_neg (by decide), if_pos rfl,
      if_pos hh]
  · intro hI hp hh hz
    rw [NewMetricCore, if_neg (by omega), hp, if_neg (by decide), if_pos rfl,
      if_neg hh, if_pos hz]
  · intro hI hp hh hneg
    rw [NewMetricCore, if_neg (by omega), hp, if_neg (by decide), if_pos rfl,
      if_neg hh, if_neg (by omega), if_pos hneg]
  · intro hT
    rw [NewTracerCore, if_pos hT]
  · intro hT hp hh
    rw [NewTracerCore, if_neg (by omega), hp, if_neg (by decide), if_pos rfl,
      if_pos hh]
  · intro hT hp hh hz
    rw [NewTracerCore, if_neg (by omega), hp, if_neg (by decide), if_pos rfl,
      if_neg hh, if_pos hz]
  · intro hT hp hh hneg
    rw [NewTracerCore, if_neg (by omega), hp, if_neg (by decide), if_pos rfl,
      if_neg hh, if_neg (by omega), if_pos hneg]

theorem C4_initializer_validation_witness :
    NewMetricCore { metricDefaultOptions with Interval := 0 } =
      .fail ErrMetricIntervalInvalid ∧
    NewMetricCore { metricDefaultOptions with Provider := "otlp" } =
      .fail ErrMetricProviderHostRequired ∧
    NewMetricCore { metricDefaultOptions with
        Provider := "otlp", ProviderHost := "localhost" } =
      .fail ErrMetricProviderPortRequired ∧
    NewMetricCore { metricDefaultOptions with
        Provider := "otlp", ProviderHost := "localhost", ProviderPort := -1 } =
      .fail ErrMetricProviderPortInvalid ∧
    NewTracerCore { tracerDefaultOptions with BatchTimeout := 0 } =
      .fail ErrTracerBatchTimeoutInvalid ∧
    NewTracerCore { tracerDefaultOptions with Provider := "otlp" } =
      .fail ErrTracerProviderHostRequired ∧
    NewTracerCore { tracerDefaultOptions with
        Provider := "otlp", ProviderHost := "localhost" } =
      .fail ErrTracerProviderPortRequired ∧
    NewTracerCore { tracerDefaultOptions with
        Provider := "otlp", ProviderHost := "localhost", ProviderPort := -1 } =
      .fail ErrTracerProviderPortInvalid := by
  refine ⟨?_, ?_, ?_, ?_, ?_, ?_, ?_, ?_⟩
  · exact (C4_initializer_validation _ tracerDefaultOptions).1 (by decide)
  · exact (C4_initializer_validation _ tracerDefaultOptions).2.1 (by decide)
      rfl rfl
  · exact (C4_initializer_validation _ tracerDefaultOptions).2.2.1 (by decide)
      rfl (by decide) rfl
  · exact (C4_initializer_validation _ tracerDefaultOptions).2.2.2.1
      (by decide) rfl (by decide) (by decide)
  · exact (C4_initializer_validation metricDefaultOptions _).2.2.2.2.1
      (by decide)
  · exact (C4_initializer_validation metricDefaultOptions _).2.2.2.2.2.1
      (by decide) rfl rfl
  · exact (C4_initializer_validation metricDefaultOptions _).2.2.2.2.2.2.1
      (by decide) rfl (by decide) rfl
  · exact (C4_initializer_validation metricDefaultOptions _).2.2.2.2.2.2.2
      (by decide) rfl (by decide) (by decide)

/-- C7: every key of the metadata carrier returned by `InjectContext` is
lowercase (it equals its own lowercasing), for every context, regardless of
the key case the propagation layer produced internally. -/
theorem C7_inject_keys_lowercase (ctx : Ctx) (k : GoStr) (vs : List GoStr)
    (h : (k, vs) ∈ InjectContext ctx) : goToLower k = k := by
  unfold InjectContext at h
  rcases mem_foldl_mapSet_lower _ _ _ _ h with ⟨vs'', habs⟩ | ⟨kv, _, hk⟩
  · cases habs
  · rw [hk, goToLower_idem]

theorem C7_inject_keys_lowercase_witness :
    (traceparentHeader,
        [traceparentValue { traceID := 1, spanID := 2, traceFlags := 1 }]) ∈
      InjectContext (some { traceID := 1, spanID := 2, traceFlags := 1 }) ∧
    goToLower traceparentHeader = traceparentHeader :=
  ⟨by decide,
   C7_inject_keys_lowercase
     (some { traceID := 1, spanID := 2, traceFlags := 1 }) traceparentHeader
     [traceparentValue { traceID := 1, spanID := 2, traceFlags := 1 }]
     (by decide)⟩

/-- C8: `ExtractContext` is a total function (it can never panic); the empty
carrier yields the base context back (no extracted trace identity, no
error); truncating every value list to its first element does not change the
result (values after the first are ignored); dropping the entries with an
empty value list does not change the result (such keys are skipped); and on
a carrier whose propagation key holds a valid first value and an ignored
second value the extraction produces the trace identity encoded in the first
value. -/
theorem C8_extract_first_values (ctx : Ctx) (md : StrMap) :
    ExtractContext ctx [] = ctx ∧
    ExtractContext ctx (md.map fun kv => (kv.1, kv.2.take 1)) =
      ExtractContext ctx md ∧
    ExtractContext ctx (md.filter fun kv => !kv.2.isEmpty) =
      ExtractContext ctx md ∧
    ExtractContext none [(bytesOfString "traceparent",
        [traceparentValue { traceID := 1, spanID := 2, traceFlags := 1 },
         bytesOfString "ignored-second-value"])] =
      some { traceID := 1, spanID := 2, traceFlags := 1 } := by
  refine ⟨rfl, ?_, ?_, by decide⟩
  · rw [extractContext_eq_foldl, extractContext_eq_foldl,
      foldl_carrierStep_take_one]
  · rw [extractContext_eq_foldl, extractContext_eq_foldl,
      foldl_carrierStep_filter_empty]

/-- C9: for every context carrying a valid span context, the round trip
`ExtractContext (background, InjectContext ctx)` yields a context whose trace
identifier equals the trace identifier of the original span context. -/
theorem C9_carrier_round_trip (sc : SpanContext)
    (hwf : sc.wellFormed) (hv : sc.isValid = true) :
    ∃ sc2, ExtractContext none (InjectContext (some sc)) = some sc2 ∧
      sc2.traceID = sc.traceID := by
  rw [injectContext_some_valid sc hv, extractContext_traceparent_single,
    parseTraceparent_traceparentValue sc hwf hv]
  exact ⟨_, rfl, rfl⟩

theorem C9_carrier_round_trip_witness :
    ∃ sc2, ExtractContext none
        (InjectContext (some { traceID := 1, spanID := 2, traceFlags := 1 })) =
      some sc2 ∧ sc2.traceID = 1 :=
  C9_carrier_round_trip { traceID := 1, spanID := 2, traceFlags := 1 }
    (by refine ⟨?_, ?_, ?_⟩ <;> norm_num [SpanContext.wellFormed]) (by decide)
